import Mathlib

/-!
Verification development for the gametimedb server (`src/index.js`).

The file models the two near-identical Express server variants contained in
`src/index.js` (variant A: the first copy, with the signup endpoint and the
defensive parameter-count check; variant B: the second copy).  JavaScript
primitives used by the handlers (`parseInt`, `parseFloat`, `Number`/`isNaN`
string coercion, `toUpperCase`) are embedded faithfully over `String`,
with `Option`/an explicit `nan` constructor standing for JavaScript's `NaN`
and exact rationals standing for IEEE doubles (no claim below depends on
floating-point rounding).
-/

namespace GameTimeDB

/-! ## JavaScript primitives -/

/-- JavaScript whitespace characters recognised when trimming numeric input
(the ASCII subset; the handlers never receive the exotic Unicode spaces). -/
def jsIsWs (c : Char) : Bool :=
  c = ' ' || c = '\t' || c = '\n' || c = '\r' || c = '\x0b' || c = '\x0c'

def isDecDigit (c : Char) : Bool := '0' ≤ c && c ≤ '9'

def isHexDigit (c : Char) : Bool :=
  isDecDigit c || ('a' ≤ c && c ≤ 'f') || ('A' ≤ c && c ≤ 'F')

def decDigitVal (c : Char) : Nat := c.toNat - '0'.toNat

def hexDigitVal (c : Char) : Nat :=
  if isDecDigit c then decDigitVal c
  else if 'a' ≤ c && c ≤ 'f' then c.toNat - 'a'.toNat + 10
  else c.toNat - 'A'.toNat + 10

def decVal (l : List Char) : Nat := l.foldl (fun acc c => 10 * acc + decDigitVal c) 0

def hexVal (l : List Char) : Nat := l.foldl (fun acc c => 16 * acc + hexDigitVal c) 0

/-- JavaScript `parseInt(s)` (radix argument omitted, as in the source): skip leading
whitespace, optional sign, `0x`/`0X` switches to hexadecimal, otherwise the
longest leading run of decimal digits; no digits means `NaN` (`none`). -/
def jsParseInt (s : String) : Option Int :=
  let l := s.toList.dropWhile jsIsWs
  let (sgn, l) : Int × List Char :=
    match l with
    | '-' :: r => (-1, r)
    | '+' :: r => (1, r)
    | _ => (1, l)
  match l with
  | '0' :: 'x' :: r =>
    let ds := r.takeWhile isHexDigit
    if ds.isEmpty then none else some (sgn * hexVal ds)
  | '0' :: 'X' :: r =>
    let ds := r.takeWhile isHexDigit
    if ds.isEmpty then none else some (sgn * hexVal ds)
  | _ =>
    let ds := l.takeWhile isDecDigit
    if ds.isEmpty then none else some (sgn * decVal ds)

/-- A JavaScript number as the handlers can observe it: `NaN`, a signed
infinity, or a finite value (modelled exactly as a rational). -/
inductive JsNum where
  | nan : JsNum
  | inf (positive : Bool) : JsNum
  | val (q : ℚ) : JsNum
deriving DecidableEq

/-- Helper for `parseFloat`/`Number`: the value of `ip . fp e exp`. -/
def decimalValue (sgn : Int) (ip fp : List Char) (exp : Int) : ℚ :=
  (sgn : ℚ) * (decVal (ip ++ fp) : ℚ) * (10 : ℚ) ^ (exp - (fp.length : Int))

/-- JavaScript `parseFloat(s)`: skip leading whitespace, optional sign, `Infinity`
prefix, otherwise the longest leading prefix that is a decimal literal
(digits, optional fraction, optional complete exponent); no such prefix
means `NaN`.  Note no hexadecimal: `parseFloat("0x10")` is `0`. -/
def jsParseFloat (s : String) : JsNum :=
  let l := s.toList.dropWhile jsIsWs
  let (sgn, pos, l) : Int × Bool × List Char :=
    match l with
    | '-' :: r => (-1, false, r)
    | '+' :: r => (1, true, r)
    | _ => (1, true, l)
  if "Infinity".toList.isPrefixOf l then JsNum.inf pos
  else
    let ip := l.takeWhile isDecDigit
    let r1 := l.dropWhile isDecDigit
    let (fp, r2) : List Char × List Char :=
      match r1 with
      | '.' :: r => (r.takeWhile isDecDigit, r.dropWhile isDecDigit)
      | _ => ([], r1)
    if ip.isEmpty && fp.isEmpty then JsNum.nan
    else
      let exp : Int :=
        match r2 with
        | 'e' :: r3 => jsExpTail r3
        | 'E' :: r3 => jsExpTail r3
        | _ => 0
      JsNum.val (decimalValue sgn ip fp exp)
where
  /-- The exponent value after `e`/`E`; an incomplete exponent (no digits)
  is not part of the consumed prefix, so it contributes `0`. -/
  jsExpTail (r : List Char) : Int :=
    let (es, r4) : Int × List Char :=
      match r with
      | '-' :: r => (-1, r)
      | '+' :: r => (1, r)
      | _ => (1, r)
    let ed := r4.takeWhile isDecDigit
    if ed.isEmpty then 0 else es * decVal ed

/-- Recogniser for a full decimal literal body (after an optional sign):
`DecimalDigits [. DecimalDigits] [ExponentPart]` or
`. DecimalDigits [ExponentPart]`, where an exponent, if present, must be
complete. -/
def fullDecimalBody (l : List Char) : Bool :=
  let ip := l.takeWhile isDecDigit
  let r1 := l.dropWhile isDecDigit
  let (fp, r2) : List Char × List Char :=
    match r1 with
    | '.' :: r => (r.takeWhile isDecDigit, r.dropWhile isDecDigit)
    | _ => ([], r1)
  if ip.isEmpty && fp.isEmpty then false
  else
    match r2 with
    | [] => true
    | 'e' :: r3 => fullExpTail r3
    | 'E' :: r3 => fullExpTail r3
    | _ => false
where
  fullExpTail (r : List Char) : Bool :=
    let r4 : List Char :=
      match r with
      | '-' :: r => r
      | '+' :: r => r
      | _ => r
    !r4.isEmpty && r4.all isDecDigit

/-- JavaScript `Number(s)` restricted to what `isNaN(s)` observes: `true` exactly when
the trimmed string is non-empty and is not a `StrNumericLiteral` (signed
decimal or `Infinity`, or an unsigned `0x`/`0o`/`0b` integer).  The empty
or whitespace-only string coerces to `0`, hence is not `NaN`. -/
def jsIsNaNStr (s : String) : Bool :=
  let l := (s.toList.dropWhile jsIsWs).reverse.dropWhile jsIsWs |>.reverse
  match l with
  | [] => false
  | '-' :: r => !(r = "Infinity".toList || fullDecimalBody r)
  | '+' :: r => !(r = "Infinity".toList || fullDecimalBody r)
  | '0' :: 'x' :: r => !(!r.isEmpty && r.all isHexDigit)
  | '0' :: 'X' :: r => !(!r.isEmpty && r.all isHexDigit)
  | '0' :: 'o' :: r => !(!r.isEmpty && r.all (fun c => '0' ≤ c && c ≤ '7'))
  | '0' :: 'O' :: r => !(!r.isEmpty && r.all (fun c => '0' ≤ c && c ≤ '7'))
  | '0' :: 'b' :: r => !(!r.isEmpty && r.all (fun c => c = '0' || c = '1'))
  | '0' :: 'B' :: r => !(!r.isEmpty && r.all (fun c => c = '0' || c = '1'))
  | _ => !(l = "Infinity".toList || fullDecimalBody l)

/-- JavaScript `s.toUpperCase()` on the ASCII strings the handlers compare against. -/
def jsToUpper (s : String) : String := (s.toList.map Char.toUpper).asString

/-- JavaScript truthiness of an optional string field (`undefined` and the
empty string are falsy; every other string is truthy). -/
def truthy : Option String → Bool
  | none => false
  | some s => !(s = "")

/-- Decimal digit character for a value below ten. -/
def decDigitChar (k : Nat) : Char :=
  match k with
  | 0 => '0' | 1 => '1' | 2 => '2' | 3 => '3' | 4 => '4'
  | 5 => '5' | 6 => '6' | 7 => '7' | 8 => '8' | _ => '9'

/-- Decimal digits, least significant first, with explicit fuel (the fuel
is always at least the digit count, see `natDecRev`). -/
def natDecRevAux : Nat → Nat → List Char
  | 0, n => [decDigitChar n]
  | fuel + 1, n =>
    if n < 10 then [decDigitChar n]
    else decDigitChar (n % 10) :: natDecRevAux fuel (n / 10)

/-- Decimal digits of a natural number, least significant first. -/
def natDecRev (n : Nat) : List Char := natDecRevAux n n

def natDecString (n : Nat) : String := (natDecRev n).reverse.asString

/-- JavaScript template-literal stringification of an integer-valued
number (`` `${limitNum}` ``): its plain decimal representation. -/
def intDecString (i : Int) : String :=
  if i < 0 then "-" ++ natDecString i.natAbs else natDecString i.natAbs

/-! ## GET /api/games: the query builder -/

/-- A value bound as a `?` parameter of a prepared statement. -/
inductive SqlParam where
  | str (s : String) : SqlParam
  | num (n : JsNum) : SqlParam
  | int (i : Int) : SqlParam
deriving DecidableEq

/-- The query-string inputs of `GET /api/games` (`none` = absent). -/
structure GamesQueryInput where
  search : Option String := none
  minPrice : Option String := none
  maxPrice : Option String := none
  minHours : Option String := none
  maxHours : Option String := none
  sortBy : Option String := none
  order : Option String := none
  page : Option String := none
  limit : Option String := none
deriving DecidableEq

/-- JavaScript `x || d` on the result of `parseInt`: `NaN` and `0` (and
`-0`) are falsy and fall back to the default. -/
def jsOrDefault (o : Option Int) (d : Int) : Int :=
  match o with
  | none => d
  | some 0 => d
  | some v => v

/-- Variant A: `Math.max(1, parseInt(page) || 1)`.  Destructuring gives the
absent parameter the (number) default `1`, which `parseInt` sees as `"1"`. -/
def pageNumA (page : Option String) : Int :=
  max 1 (jsOrDefault (jsParseInt (page.getD "1")) 1)

/-- Variant A: `Math.min(100, Math.max(1, parseInt(limit) || 20))`. -/
def limitNumA (limit : Option String) : Int :=
  min 100 (max 1 (jsOrDefault (jsParseInt (limit.getD "20")) 20))

/-- Variant A: `offset = (pageNum - 1) * limitNum`. -/
def offsetA (page limit : Option String) : Int :=
  (pageNumA page - 1) * limitNumA limit

/-- Variant B: `Math.max(1, parseInt(page))` — no `|| 1` fallback, so an
unparseable `page` propagates `NaN` (`none`). -/
def pageNumB (page : Option String) : Option Int :=
  (jsParseInt (page.getD "1")).map (fun n => max 1 n)

/-- Variant B: `Math.min(100, Math.max(1, parseInt(limit)))`. -/
def limitNumB (limit : Option String) : Option Int :=
  (jsParseInt (limit.getD "20")).map (fun n => min 100 (max 1 n))

/-- Variant B: `(pageNum - 1) * limitNum`, `NaN`-propagating. -/
def offsetB (page limit : Option String) : Option Int :=
  match pageNumB page, limitNumB limit with
  | some p, some l => some ((p - 1) * l)
  | _, _ => none

/-- The `whereConditions`/`baseParams` arrays, built in lockstep and in the
source's fixed order (search, minPrice, maxPrice, minHours, maxHours).
Variant A guards the bounds with `!== undefined && !== ''` and variant B
with truthiness; on string inputs both mean present-and-non-empty (the
only falsy strings are absent/empty), so one definition serves both
variants. -/
def filterPairs (q : GamesQueryInput) : List (String × SqlParam) :=
  (if truthy q.search then
    [("name LIKE ?", SqlParam.str ("%" ++ q.search.getD "" ++ "%"))] else []) ++
  (if truthy q.minPrice then
    [("price_usd >= ?", SqlParam.num (jsParseFloat (q.minPrice.getD "")))] else []) ++
  (if truthy q.maxPrice then
    [("price_usd <= ?", SqlParam.num (jsParseFloat (q.maxPrice.getD "")))] else []) ++
  (if truthy q.minHours then
    [("hours_to_beat >= ?", SqlParam.num (jsParseFloat (q.minHours.getD "")))] else []) ++
  (if truthy q.maxHours then
    [("hours_to_beat <= ?", SqlParam.num (jsParseFloat (q.maxHours.getD "")))] else [])

def whereConditions (q : GamesQueryInput) : List String := (filterPairs q).map Prod.fst

def baseParams (q : GamesQueryInput) : List SqlParam := (filterPairs q).map Prod.snd

/-- JavaScript `Array.prototype.join(' AND ')`. -/
def joinAnd : List String → String
  | [] => ""
  | [c] => c
  | c :: rest => c ++ " AND " ++ joinAnd rest

/-- Source: `whereConditions.length > 0 ? WHERE ... : ''` (the joined
conditions after the `WHERE` keyword). -/
def whereClause (q : GamesQueryInput) : String :=
  if (whereConditions q).isEmpty then ""
  else "WHERE " ++ joinAnd (whereConditions q)

def validSortColumns : List String :=
  ["name", "price_usd", "hours_to_beat", "cost_per_hour", "created_at"]

/-- Source: `validSortColumns.includes(sortBy) ? sortBy : 'name'`;
destructuring defaults `sortBy` to `'name'` when absent. -/
def sortColumn (sortBy : Option String) : String :=
  if validSortColumns.contains (sortBy.getD "name") then sortBy.getD "name" else "name"

/-- Source: `order.toUpperCase() === 'DESC' ? 'DESC' : 'ASC'`;
destructuring defaults `order` to `'ASC'` when absent. -/
def sortOrder (order : Option String) : String :=
  if jsToUpper (order.getD "ASC") = "DESC" then "DESC" else "ASC"

/-- The count query text (both variants use the same template):
`` `SELECT COUNT(*) as total FROM steam_games ${whereClause}` ``. -/
def countQuery (q : GamesQueryInput) : String :=
  "SELECT COUNT(*) as total FROM steam_games " ++ whereClause q

/-- Count-query parameters: `[...baseParams]` (both variants). -/
def countParams (q : GamesQueryInput) : List SqlParam := baseParams q

/-- Variant A fetch-query text: the one-line template with the clamped
`limitNum`/`offset` interpolated directly into the query string. -/
def gamesQueryA (q : GamesQueryInput) : String :=
  "SELECT id, name, steam_appid, price_usd, hours_to_beat, cost_per_hour, created_at, updated_at FROM steam_games "
    ++ whereClause q ++ " ORDER BY " ++ sortColumn q.sortBy ++ " " ++ sortOrder q.order
    ++ " LIMIT " ++ intDecString (limitNumA q.limit) ++ " OFFSET " ++ intDecString (offsetA q.page q.limit)

/-- Variant A fetch-query parameters: `[...baseParams]` only (no
limit/offset parameters — they are in the query text). -/
def gamesParamsA (q : GamesQueryInput) : List SqlParam := baseParams q

/-- Variant B fetch-query text: the multi-line template with `LIMIT ? OFFSET ?`. -/
def gamesQueryB (q : GamesQueryInput) : String :=
  "\n      SELECT \n        id,\n        name,\n        steam_appid,\n        price_usd,\n        hours_to_beat,\n        cost_per_hour,\n        created_at,\n        updated_at\n      FROM steam_games \n      "
    ++ whereClause q ++ "\n      ORDER BY " ++ sortColumn q.sortBy ++ " " ++ sortOrder q.order
    ++ "\n      LIMIT ? OFFSET ?\n    "

/-- Variant B fetch-query parameters: `[...baseParams, limitNum, offset]`
(`NaN` pagination values modelled as `num nan`). -/
def gamesParamsB (q : GamesQueryInput) : List SqlParam :=
  baseParams q ++
    [match limitNumB q.limit with
     | some l => SqlParam.int l
     | none => SqlParam.num JsNum.nan,
     match offsetB q.page q.limit with
     | some o => SqlParam.int o
     | none => SqlParam.num JsNum.nan]

/-- Source: `(query.match(/\?/g) || []).length` — the number of `?`
placeholders in a query text. -/
def countQMarks (s : String) : Nat := (s.toList.filter (fun c => c = '?')).length

/-- Variant A, lines 340–345: before executing the fetch query the handler
compares `gamesParams.length` against the number of `?` placeholders and
throws `Parameter count mismatch` instead of executing on a mismatch. -/
def checkedExecuteA (query : String) (params : List SqlParam) :
    Except String (String × List SqlParam) :=
  if params.length ≠ countQMarks query then
    Except.error ("Parameter count mismatch: " ++ toString params.length ++ " params vs "
      ++ toString (countQMarks query) ++ " placeholders")
  else
    Except.ok (query, params)

/-! ## Data model and SQL execution semantics -/

/-- A row of the `steam_games` relation.  Nullable decimal columns are
`Option ℚ`; timestamps are abstracted to integers (nothing below inspects
them beyond ordering). -/
structure GameRow where
  id : Int
  name : String
  steam_appid : Int
  price_usd : Option ℚ := none
  hours_to_beat : Option ℚ := none
  cost_per_hour : Option ℚ := none
  created_at : Int := 0
  updated_at : Int := 0
deriving DecidableEq

def lowerChars (s : String) : List Char := s.toList.map Char.toLower

/-- Substring test on character lists (for `LIKE '%term%'` under MySQL's
case-insensitive default collation). -/
def isSubstring (needle : List Char) : List Char → Bool
  | [] => needle.isEmpty
  | c :: rest => needle.isPrefixOf (c :: rest) || isSubstring needle (c :: rest).tail
termination_by l => l.length

/-- SQL `col >= param` over a nullable column: comparisons against `NULL`
and against a non-finite parameter do not hold. -/
def sqlGe (col : Option ℚ) (p : JsNum) : Bool :=
  match col, p with
  | some c, JsNum.val v => decide (v ≤ c)
  | _, _ => false

/-- SQL `col <= param` over a nullable column. -/
def sqlLe (col : Option ℚ) (p : JsNum) : Bool :=
  match col, p with
  | some c, JsNum.val v => decide (c ≤ v)
  | _, _ => false

/-- Whether a row satisfies the assembled `WHERE` clause: the conjunction
of the five optional predicates, in the source's fixed order. -/
def rowMatches (q : GamesQueryInput) (r : GameRow) : Bool :=
  (if truthy q.search then isSubstring (lowerChars (q.search.getD "")) (lowerChars r.name)
   else true) &&
  (if truthy q.minPrice then sqlGe r.price_usd (jsParseFloat (q.minPrice.getD "")) else true) &&
  (if truthy q.maxPrice then sqlLe r.price_usd (jsParseFloat (q.maxPrice.getD "")) else true) &&
  (if truthy q.minHours then sqlGe r.hours_to_beat (jsParseFloat (q.minHours.getD "")) else true) &&
  (if truthy q.maxHours then sqlLe r.hours_to_beat (jsParseFloat (q.maxHours.getD "")) else true)

/-- Ordering on a nullable decimal column, `NULL` first (MySQL ascending). -/
def optQLe (a b : Option ℚ) : Bool :=
  match a, b with
  | none, _ => true
  | some _, none => false
  | some x, some y => decide (x ≤ y)

/-- Row comparison along the validated sort column. -/
def rowLeBy (col : String) (r1 r2 : GameRow) : Bool :=
  if col = "price_usd" then optQLe r1.price_usd r2.price_usd
  else if col = "hours_to_beat" then optQLe r1.hours_to_beat r2.hours_to_beat
  else if col = "cost_per_hour" then optQLe r1.cost_per_hour r2.cost_per_hour
  else if col = "created_at" then decide (r1.created_at ≤ r2.created_at)
  else decide (r1.name ≤ r2.name)

/-- The `ORDER BY ${sortColumn} ${sortOrder}` comparison. -/
def rowOrder (sortBy order : Option String) (r1 r2 : GameRow) : Bool :=
  if sortOrder order = "DESC" then rowLeBy (sortColumn sortBy) r2 r1
  else rowLeBy (sortColumn sortBy) r1 r2

def insertSorted (le : GameRow → GameRow → Bool) (a : GameRow) : List GameRow → List GameRow
  | [] => [a]
  | b :: rest => if le a b then a :: b :: rest else b :: insertSorted le a rest

/-- Insertion sort standing in for the database's `ORDER BY`. -/
def sortRows (le : GameRow → GameRow → Bool) : List GameRow → List GameRow
  | [] => []
  | a :: rest => insertSorted le a (sortRows le rest)

/-- Source: `Math.ceil(a / b)` for a non-negative integer `a` and positive
integer `b` (the division is exact in doubles for the magnitudes involved). -/
def mathCeilDiv (a b : Int) : Int := (a + b - 1) / b

/-- The JSON `pagination` object of a games-list response, together with
the returned page of rows. -/
structure GamesListResp where
  games : List GameRow
  currentPage : Int
  totalPages : Int
  totalGames : Nat
  gamesPerPage : Int
  hasNextPage : Bool
  hasPrevPage : Bool
deriving DecidableEq

/-- Variant A `GET /api/games` handler over a table: filter, count, sort,
slice by the interpolated `LIMIT`/`OFFSET`, and derive the pagination
metadata exactly as lines 347–367 do. -/
def handleGamesA (table : List GameRow) (q : GamesQueryInput) : GamesListResp :=
  let matched := table.filter (rowMatches q)
  let totalGames := matched.length
  let limitNum := limitNumA q.limit
  let pageNum := pageNumA q.page
  let sorted := sortRows (rowOrder q.sortBy q.order) matched
  let games := (sorted.drop (offsetA q.page q.limit).toNat).take limitNum.toNat
  let totalPages := mathCeilDiv totalGames limitNum
  { games := games
    currentPage := pageNum
    totalPages := totalPages
    totalGames := totalGames
    gamesPerPage := limitNum
    hasNextPage := decide (pageNum < totalPages)
    hasPrevPage := decide (1 < pageNum) }

/-! ## Users and POST /api/login -/

structure UserRow where
  id : Int
  username : String
  email : String
  password_hash : String
deriving DecidableEq

/-- The `user` object of a successful login response (variant A includes
the id, variant B does not). -/
structure UserOut where
  id : Option Int
  username : String
deriving DecidableEq

structure LoginResp where
  status : Nat
  success : Bool
  message : String
  user : Option UserOut
deriving DecidableEq

/-- Source: `SELECT ... FROM users WHERE username = ?` — the first row
with an exact username match. -/
def findUser (db : List UserRow) (u : String) : Option UserRow :=
  db.find? (fun r => r.username = u)

/-- Variant A `POST /api/login` (lines 56–111); `verify` is the external
`bcrypt.compare`. -/
def loginA (db : List UserRow) (verify : String → String → Bool)
    (username password : Option String) : LoginResp :=
  if !truthy username || !truthy password then
    ⟨400, false, "Username and password are required", none⟩
  else
    match findUser db (username.getD "") with
    | none => ⟨401, false, "Invalid username or password", none⟩
    | some user =>
      if verify (password.getD "") user.password_hash then
        ⟨200, true, "Login successful", some ⟨some user.id, user.username⟩⟩
      else
        ⟨401, false, "Invalid username or password", none⟩

/-- Variant B `POST /api/login` (lines 629–683): identical control flow,
the success payload omits the id. -/
def loginB (db : List UserRow) (verify : String → String → Bool)
    (username password : Option String) : LoginResp :=
  if !truthy username || !truthy password then
    ⟨400, false, "Username and password are required", none⟩
  else
    match findUser db (username.getD "") with
    | none => ⟨401, false, "Invalid username or password", none⟩
    | some user =>
      if verify (password.getD "") user.password_hash then
        ⟨200, true, "Login successful", some ⟨none, user.username⟩⟩
      else
        ⟨401, false, "Invalid username or password", none⟩

/-! ## GET /api/games/:id and route dispatch -/

structure GameResp where
  status : Nat
  success : Bool
  message : Option String
  game : Option GameRow
deriving DecidableEq

/-- Source: `WHERE id = ?` with the raw path segment bound as the parameter: MySQL
coerces the string to a number for comparison with the integer column
(modelling choice; no theorem below depends on a non-empty match). -/
def findByIdParam (table : List GameRow) (idStr : String) : Option GameRow :=
  table.find? (fun r => jsParseFloat idStr = JsNum.val (r.id : ℚ))

/-- The `GET /api/games/:id` handler (identical in both variants):
`if (!id || isNaN(id))` → 400, else look the row up, 404 when absent. -/
def getGameById (table : List GameRow) (id : String) : GameResp :=
  if id = "" || jsIsNaNStr id then ⟨400, false, some "Invalid game ID", none⟩
  else
    match findByIdParam table id with
    | none => ⟨404, false, some "Game not found", none⟩
    | some g => ⟨200, true, none, some g⟩

/-- A segment of a registered route pattern. -/
inductive Seg where
  | lit (s : String) : Seg
  | par (name : String) : Seg
deriving DecidableEq

def segMatches : Seg → String → Bool
  | Seg.lit s, t => s = t
  | Seg.par _, _ => true

/-- Express path matching for the patterns used here: same number of
segments, literals equal, `:param` segments match anything. -/
def patMatches (p : List Seg) (path : List String) : Bool :=
  p.length = path.length && (p.zip path).all (fun st => segMatches st.1 st.2)

/-- The GET endpoints of variant A. -/
inductive RouteA where
  | root | dashboard | signupPage | apiGames | apiGamesById | apiGamesSteam
  | apiOwnedGames | apiGamesStats | apiHealth
deriving DecidableEq

/-- Variant A GET routes in registration order (lines 46, 51, 237, 244,
380, 431, 482, 514, 549). -/
def getRoutesA : List (List Seg × RouteA) :=
  [([], RouteA.root),
   ([Seg.lit "dashboard"], RouteA.dashboard),
   ([Seg.lit "signup"], RouteA.signupPage),
   ([Seg.lit "api", Seg.lit "games"], RouteA.apiGames),
   ([Seg.lit "api", Seg.lit "games", Seg.par "id"], RouteA.apiGamesById),
   ([Seg.lit "api", Seg.lit "games", Seg.lit "steam", Seg.par "appid"], RouteA.apiGamesSteam),
   ([Seg.lit "api", Seg.lit "owned-games"], RouteA.apiOwnedGames),
   ([Seg.lit "api", Seg.lit "games", Seg.lit "stats"], RouteA.apiGamesStats),
   ([Seg.lit "api", Seg.lit "health"], RouteA.apiHealth)]

/-- Express dispatch: the first registered route whose pattern matches. -/
def dispatchA (path : List String) : Option RouteA :=
  (getRoutesA.find? (fun rt => patMatches rt.1 path)).map (fun rt => rt.2)

/-- The GET endpoints of variant B (no signup page, no owned-games proxy). -/
inductive RouteB where
  | root | dashboard | apiGames | apiGamesById | apiGamesSteam
  | apiGamesStats | apiHealth
deriving DecidableEq

/-- Variant B GET routes in registration order (lines 619, 624, 688, 797,
848, 899, 934). -/
def getRoutesB : List (List Seg × RouteB) :=
  [([], RouteB.root),
   ([Seg.lit "dashboard"], RouteB.dashboard),
   ([Seg.lit "api", Seg.lit "games"], RouteB.apiGames),
   ([Seg.lit "api", Seg.lit "games", Seg.par "id"], RouteB.apiGamesById),
   ([Seg.lit "api", Seg.lit "games", Seg.lit "steam", Seg.par "appid"], RouteB.apiGamesSteam),
   ([Seg.lit "api", Seg.lit "games", Seg.lit "stats"], RouteB.apiGamesStats),
   ([Seg.lit "api", Seg.lit "health"], RouteB.apiHealth)]

def dispatchB (path : List String) : Option RouteB :=
  (getRoutesB.find? (fun rt => patMatches rt.1 path)).map (fun rt => rt.2)

/-! ## Supporting lemmas -/

lemma length_insertSorted (le : GameRow → GameRow → Bool) (a : GameRow) (l : List GameRow) :
    (insertSorted le a l).length = l.length + 1 := by
  induction l with
  | nil => rfl
  | cons b rest ih => simp only [insertSorted]; split <;> simp [ih]

lemma length_sortRows (le : GameRow → GameRow → Bool) (l : List GameRow) :
    (sortRows le l).length = l.length := by
  induction l with
  | nil => rfl
  | cons a rest ih => simp only [sortRows]; rw [length_insertSorted, ih]; simp

lemma countQMarks_append (a b : String) :
    countQMarks (a ++ b) = countQMarks a + countQMarks b := by
  simp [countQMarks, String.toList, String.data_append]

lemma decDigitChar_ne_qmark (k : Nat) : decDigitChar k ≠ '?' := by
  unfold decDigitChar; split <;> decide

lemma natDecRevAux_ne_qmark : ∀ fuel n : Nat, ∀ c ∈ natDecRevAux fuel n, c ≠ '?' := by
  intro fuel
  induction fuel with
  | zero =>
    intro n c hc
    simp only [natDecRevAux, List.mem_singleton] at hc
    subst hc; exact decDigitChar_ne_qmark n
  | succ f ih =>
    intro n c hc
    rw [natDecRevAux] at hc
    split at hc
    · simp only [List.mem_singleton] at hc
      subst hc; exact decDigitChar_ne_qmark n
    · rcases List.mem_cons.mp hc with h | h
      · subst h; exact decDigitChar_ne_qmark _
      · exact ih (n / 10) c h

lemma natDecRev_ne_qmark : ∀ n : Nat, ∀ c ∈ natDecRev n, c ≠ '?' :=
  fun n => natDecRevAux_ne_qmark n n

lemma countQMarks_natDecString (n : Nat) : countQMarks (natDecString n) = 0 := by
  have : ∀ c ∈ (natDecRev n).reverse, ¬(c = '?') := by
    intro c hc
    exact natDecRev_ne_qmark n c (List.mem_reverse.mp hc)
  show ((natDecRev n).reverse.filter (fun c => c = '?')).length = 0
  rw [List.length_eq_zero, List.filter_eq_nil_iff]
  simpa using this

lemma countQMarks_intDecString (i : Int) : countQMarks (intDecString i) = 0 := by
  unfold intDecString
  split
  · rw [countQMarks_append, countQMarks_natDecString]; decide
  · exact countQMarks_natDecString _

lemma countQMarks_joinAnd (l : List String) (h : ∀ c ∈ l, countQMarks c = 1) :
    countQMarks (joinAnd l) = l.length := by
  induction l with
  | nil => rfl
  | cons c rest ih =>
    cases rest with
    | nil => simpa using h c (by simp)
    | cons d rest2 =>
      show countQMarks (c ++ " AND " ++ joinAnd (d :: rest2)) = _
      rw [countQMarks_append, countQMarks_append,
        ih (fun x hx => h x (by simp [hx])), h c (by simp)]
      have h0 : countQMarks " AND " = 0 := by decide
      simp [List.length_cons, h0]
      omega

/-- Every assembled filter predicate is one of the five fixed condition
strings, in the source's fixed order (hence an ordered sublist). -/
lemma whereConditions_sublist (q : GamesQueryInput) :
    List.Sublist (whereConditions q)
      ["name LIKE ?", "price_usd >= ?", "price_usd <= ?",
       "hours_to_beat >= ?", "hours_to_beat <= ?"] := by
  unfold whereConditions filterPairs
  rcases hs : truthy q.search <;> rcases h1 : truthy q.minPrice <;>
    rcases h2 : truthy q.maxPrice <;> rcases h3 : truthy q.minHours <;>
    rcases h4 : truthy q.maxHours <;> first
      | (simp; done)
      | (simp; decide)

lemma whereConditions_qmarks (q : GamesQueryInput) :
    ∀ c ∈ whereConditions q, countQMarks c = 1 := by
  intro c hc
  have hm := (whereConditions_sublist q).subset hc
  simp only [List.mem_cons, List.not_mem_nil, or_false] at hm
  rcases hm with h | h | h | h | h <;> rw [h] <;> decide

lemma whereConditions_length (q : GamesQueryInput) :
    (whereConditions q).length = (filterPairs q).length := by
  simp [whereConditions]

lemma baseParams_length (q : GamesQueryInput) :
    (baseParams q).length = (filterPairs q).length := by
  simp [baseParams]

lemma countQMarks_whereClause (q : GamesQueryInput) :
    countQMarks (whereClause q) = (filterPairs q).length := by
  unfold whereClause
  split
  · next h =>
    have h0 : (whereConditions q).length = 0 := by
      rw [List.isEmpty_iff] at h; simp [h]
    rw [← whereConditions_length, h0]; rfl
  · rw [countQMarks_append, countQMarks_joinAnd _ (whereConditions_qmarks q),
      whereConditions_length]
    have h0 : countQMarks "WHERE " = 0 := by decide
    omega

lemma sortColumn_mem (sb : Option String) : sortColumn sb ∈ validSortColumns := by
  unfold sortColumn
  split
  · next h => exact List.mem_of_elem_eq_true h
  · decide

lemma sortOrder_cases (o : Option String) :
    sortOrder o = "ASC" ∨ sortOrder o = "DESC" := by
  unfold sortOrder; split <;> simp

lemma countQMarks_sortColumn (sb : Option String) :
    countQMarks (sortColumn sb) = 0 := by
  have hm := sortColumn_mem sb
  simp only [validSortColumns, List.mem_cons, List.not_mem_nil, or_false] at hm
  rcases hm with h | h | h | h | h <;> rw [h] <;> decide

lemma countQMarks_sortOrder (o : Option String) :
    countQMarks (sortOrder o) = 0 := by
  rcases sortOrder_cases o with h | h <;> rw [h] <;> decide

lemma countQMarks_gamesQueryA (q : GamesQueryInput) :
    countQMarks (gamesQueryA q) = (filterPairs q).length := by
  unfold gamesQueryA
  simp only [countQMarks_append, countQMarks_whereClause, countQMarks_sortColumn,
    countQMarks_sortOrder, countQMarks_intDecString]
  have h1 : countQMarks "SELECT id, name, steam_appid, price_usd, hours_to_beat, cost_per_hour, created_at, updated_at FROM steam_games " = 0 := by decide
  have h2 : countQMarks " ORDER BY " = 0 := by decide
  have h3 : countQMarks " " = 0 := by decide
  have h4 : countQMarks " LIMIT " = 0 := by decide
  have h5 : countQMarks " OFFSET " = 0 := by decide
  omega

lemma countQMarks_gamesQueryB (q : GamesQueryInput) :
    countQMarks (gamesQueryB q) = (filterPairs q).length + 2 := by
  unfold gamesQueryB
  simp only [countQMarks_append, countQMarks_whereClause, countQMarks_sortColumn,
    countQMarks_sortOrder]
  have h1 : countQMarks "\n      SELECT \n        id,\n        name,\n        steam_appid,\n        price_usd,\n        hours_to_beat,\n        cost_per_hour,\n        created_at,\n        updated_at\n      FROM steam_games \n      " = 0 := by decide
  have h2 : countQMarks "\n      ORDER BY " = 0 := by decide
  have h3 : countQMarks " " = 0 := by decide
  have h4 : countQMarks "\n      LIMIT ? OFFSET ?\n    " = 2 := by decide
  omega

/-! ## Claim theorems -/

/-- C1: a `GET /api/games/stats` request never produces the aggregate
statistics object.  In both server variants `/api/games/:id` is registered
before `/api/games/stats`, so dispatch selects the by-id route with
`id = "stats"`; `Number("stats")` is `NaN`, so that handler answers
400 "Invalid game ID" for every table. -/
theorem statsRouteShadowedByIdRoute :
    dispatchA ["api", "games", "stats"] = some RouteA.apiGamesById ∧
    dispatchB ["api", "games", "stats"] = some RouteB.apiGamesById ∧
    jsIsNaNStr "stats" = true ∧
    ∀ table : List GameRow,
      getGameById table "stats" = ⟨400, false, some "Invalid game ID", none⟩ := by
  refine ⟨by decide, by decide, by decide, fun table => ?_⟩
  have h : (("stats" = "" : Bool) || jsIsNaNStr "stats") = true := by decide
  unfold getGameById
  rw [if_pos h]

/-- C2 counterexample: in variant B a present-but-unparseable `page` or
`limit` is not clamped: `parseInt("abc")` is `NaN` and
`Math.max(1, NaN) = NaN`, so the effective page, limit and offset are all
`NaN` (`none`) — no integer `≥ 1` is used.  Variant A's `|| 1` fallback
clamps the same input to `1`. -/
theorem paginationClampCounterexample :
    pageNumB (some "abc") = none ∧
    limitNumB (some "abc") = none ∧
    offsetB (some "abc") (some "5") = none ∧
    (∀ n : Int, ¬(pageNumB (some "abc") = some n ∧ 1 ≤ n)) ∧
    pageNumA (some "abc") = 1 ∧
    limitNumA (some "abc") = 20 := by
  have h0 : pageNumB (some "abc") = none := by decide
  refine ⟨h0, by decide, by decide, ?_, by decide, by decide⟩
  intro n hn
  rw [h0] at hn
  exact absurd hn.1 (by simp)

/-- C2 amended: the clamping guarantee (page ≥ 1, limit ∈ [1,100] with
default 20, offset = (page−1)·limit) holds unconditionally in variant A;
in variant B it holds whenever the (defaulted) page and limit inputs parse
— a present unparseable value yields `NaN` instead of a clamp. -/
theorem paginationClampAmended :
    (∀ p l : Option String,
      1 ≤ pageNumA p ∧ 1 ≤ limitNumA l ∧ limitNumA l ≤ 100 ∧
      offsetA p l = (pageNumA p - 1) * limitNumA l) ∧
    (∀ p l : Option String, ∀ n m : Int,
      jsParseInt (p.getD "1") = some n → jsParseInt (l.getD "20") = some m →
      pageNumB p = some (max 1 n) ∧
      limitNumB l = some (min 100 (max 1 m)) ∧
      offsetB p l = some ((max 1 n - 1) * min 100 (max 1 m)) ∧
      1 ≤ max 1 n ∧ 1 ≤ min 100 (max 1 m) ∧ min 100 (max 1 m) ≤ 100) := by
  constructor
  · intro p l
    refine ⟨le_max_left 1 _, ?_, ?_, rfl⟩
    · exact le_min (by norm_num) (le_max_left 1 _)
    · exact min_le_left _ _
  · intro p l n m hn hm
    have hp : pageNumB p = some (max 1 n) := by unfold pageNumB; rw [hn]; rfl
    have hl : limitNumB l = some (min 100 (max 1 m)) := by unfold limitNumB; rw [hm]; rfl
    refine ⟨hp, hl, ?_, le_max_left 1 _, le_min (by norm_num) (le_max_left 1 _),
      min_le_left _ _⟩
    unfold offsetB
    rw [hp, hl]

/-- C2 amended, witness at concrete inputs. -/
theorem paginationClampAmendedWitness :
    pageNumB (some "2") = some 2 ∧
    limitNumB (some "500") = some 100 ∧
    offsetB (some "2") (some "500") = some 100 := by
  have h := paginationClampAmended.2 (some "2") (some "500") 2 500 (by decide) (by decide)
  refine ⟨?_, ?_, ?_⟩
  · rw [h.1]; norm_num
  · rw [h.2.1]; norm_num
  · rw [h.2.2.1]; norm_num

/-- C3 counterexample: a present non-empty but unparseable bound is not
treated as absent — `minPrice=abc` contributes the `price_usd >= ?`
predicate with the parameter `parseFloat("abc") = NaN` to both the count
and the fetch parameter lists. -/
theorem unparseableBoundCounterexample :
    whereConditions { minPrice := some "abc" } = ["price_usd >= ?"] ∧
    baseParams { minPrice := some "abc" } = [SqlParam.num JsNum.nan] ∧
    jsParseFloat "abc" = JsNum.nan ∧
    countParams { minPrice := some "abc" } = [SqlParam.num JsNum.nan] ∧
    gamesParamsA { minPrice := some "abc" } = [SqlParam.num JsNum.nan] := by
  decide

/-- C3 amended: a present non-empty bound always contributes exactly its
predicate with the `parseFloat` of its raw text (possibly `NaN`) as the
bound parameter, and an absent or empty bound contributes nothing; the
request is never rejected during assembly. -/
theorem boundPredicatesAmended (q : GamesQueryInput) :
    ((truthy q.minPrice = true →
        "price_usd >= ?" ∈ whereConditions q ∧
        SqlParam.num (jsParseFloat (q.minPrice.getD "")) ∈ baseParams q) ∧
      (truthy q.minPrice = false → "price_usd >= ?" ∉ whereConditions q)) ∧
    ((truthy q.maxPrice = true →
        "price_usd <= ?" ∈ whereConditions q ∧
        SqlParam.num (jsParseFloat (q.maxPrice.getD "")) ∈ baseParams q) ∧
      (truthy q.maxPrice = false → "price_usd <= ?" ∉ whereConditions q)) ∧
    ((truthy q.minHours = true →
        "hours_to_beat >= ?" ∈ whereConditions q ∧
        SqlParam.num (jsParseFloat (q.minHours.getD "")) ∈ baseParams q) ∧
      (truthy q.minHours = false → "hours_to_beat >= ?" ∉ whereConditions q)) ∧
    ((truthy q.maxHours = true →
        "hours_to_beat <= ?" ∈ whereConditions q ∧
        SqlParam.num (jsParseFloat (q.maxHours.getD "")) ∈ baseParams q) ∧
      (truthy q.maxHours = false → "hours_to_beat <= ?" ∉ whereConditions q)) := by
  refine ⟨⟨fun h => ⟨?_, ?_⟩, fun h => ?_⟩, ⟨fun h => ⟨?_, ?_⟩, fun h => ?_⟩,
    ⟨fun h => ⟨?_, ?_⟩, fun h => ?_⟩, ⟨fun h => ⟨?_, ?_⟩, fun h => ?_⟩⟩ <;>
    simp [whereConditions, baseParams, filterPairs, h]

/-- C3 amended, witness at a concrete request. -/
theorem boundPredicatesAmendedWitness :
    "price_usd >= ?" ∈ whereConditions { minPrice := some "abc", maxHours := some "7" } ∧
    SqlParam.num (jsParseFloat "abc")
      ∈ baseParams { minPrice := some "abc", maxHours := some "7" } ∧
    "price_usd <= ?" ∉ whereConditions { minPrice := some "abc", maxHours := some "7" } := by
  have h := boundPredicatesAmended { minPrice := some "abc", maxHours := some "7" }
  exact ⟨(h.1.1 (by decide)).1, (h.1.1 (by decide)).2, h.2.1.2 (by decide)⟩

/-- C4: in each variant the count query and the fetch query embed the same
`WHERE` clause text and bind the same filter-parameter list (the fetch
query adding only the `ORDER BY` clause and the limit/offset pagination —
interpolated in variant A, two extra trailing parameters in variant B),
and the predicates appear in the fixed order search, minPrice, maxPrice,
minHours, maxHours. -/
theorem countFetchTwoQueryConsistency (q : GamesQueryInput) :
    (∃ w : String,
      countQuery q = "SELECT COUNT(*) as total FROM steam_games " ++ w ∧
      gamesQueryA q =
        "SELECT id, name, steam_appid, price_usd, hours_to_beat, cost_per_hour, created_at, updated_at FROM steam_games "
          ++ w ++ " ORDER BY " ++ sortColumn q.sortBy ++ " " ++ sortOrder q.order
          ++ " LIMIT " ++ intDecString (limitNumA q.limit)
          ++ " OFFSET " ++ intDecString (offsetA q.page q.limit) ∧
      gamesQueryB q =
        "\n      SELECT \n        id,\n        name,\n        steam_appid,\n        price_usd,\n        hours_to_beat,\n        cost_per_hour,\n        created_at,\n        updated_at\n      FROM steam_games \n      "
          ++ w ++ "\n      ORDER BY " ++ sortColumn q.sortBy ++ " " ++ sortOrder q.order
          ++ "\n      LIMIT ? OFFSET ?\n    ") ∧
    countParams q = gamesParamsA q ∧
    (gamesParamsB q).take (countParams q).length = countParams q ∧
    (gamesParamsB q).length = (countParams q).length + 2 ∧
    List.Sublist (whereConditions q)
      ["name LIKE ?", "price_usd >= ?", "price_usd <= ?",
       "hours_to_beat >= ?", "hours_to_beat <= ?"] := by
  refine ⟨⟨whereClause q, rfl, rfl, rfl⟩, rfl, ?_, ?_, whereConditions_sublist q⟩
  · show (baseParams q ++ _).take (baseParams q).length = baseParams q
    simp
  · show (baseParams q ++ _).length = (baseParams q).length + 2
    simp

/-- C5: variant A refuses to execute a fetch query whose bound-parameter
count differs from its `?`-placeholder count, raising the mismatch error
instead; and in both variants every assembled fetch query in fact has
exactly as many bound parameters as placeholders (so no malformed query is
ever executed). -/
theorem paramCountMismatchFatal :
    (∀ (query : String) (params : List SqlParam),
      params.length ≠ countQMarks query →
      ∃ msg, checkedExecuteA query params = Except.error msg) ∧
    (∀ q : GamesQueryInput,
      (gamesParamsA q).length = countQMarks (gamesQueryA q) ∧
      (gamesParamsB q).length = countQMarks (gamesQueryB q)) := by
  constructor
  · intro query params h
    exact ⟨_, by unfold checkedExecuteA; rw [if_pos h]⟩
  · intro q
    constructor
    · rw [countQMarks_gamesQueryA]; exact baseParams_length q
    · rw [countQMarks_gamesQueryB]
      show (baseParams q ++ _).length = _
      simp [baseParams_length]

/-- C5, witness: a one-parameter list against a zero-placeholder query is
rejected with an error. -/
theorem paramCountMismatchFatalWitness :
    ∃ msg, checkedExecuteA "SELECT 1" [SqlParam.int 0] = Except.error msg :=
  paramCountMismatchFatal.1 "SELECT 1" [SqlParam.int 0] (by decide)

/-- C6 counterexample: with `sortBy=bogus` (outside the allow-list) and
`order=desc`, the fetch query orders by `name DESC`, not name-ascending —
the fallback fixes only the column, while the direction still follows the
`order` parameter. -/
theorem invalidSortFallbackCounterexample :
    sortColumn (some "bogus") = "name" ∧
    sortOrder (some "desc") = "DESC" ∧
    gamesQueryA { sortBy := some "bogus", order := some "desc" } =
      "SELECT id, name, steam_appid, price_usd, hours_to_beat, cost_per_hour, created_at, updated_at FROM steam_games  ORDER BY name DESC LIMIT 20 OFFSET 0" ∧
    sortOrder (some "desc") ≠ "ASC" := by
  decide

/-- C6 amended: a `sortBy` outside the allow-list falls back to the column
`name` (the direction being governed independently by `order`), and the
interpolated sort column is always a member of the allow-list. -/
theorem sortFallbackAmended (sb ord : Option String) :
    (sb.getD "name" ∉ validSortColumns → sortColumn sb = "name") ∧
    sortColumn sb ∈ validSortColumns ∧
    (sortOrder ord = "ASC" ∨ sortOrder ord = "DESC") := by
  refine ⟨?_, sortColumn_mem sb, sortOrder_cases ord⟩
  intro h
  unfold sortColumn
  rw [if_neg]
  intro hc
  exact h (List.mem_of_elem_eq_true hc)

/-- C6 amended, witness at concrete inputs. -/
theorem sortFallbackAmendedWitness :
    sortColumn (some "bogus!") = "name" ∧
    sortColumn (some "price_usd") ∈ validSortColumns :=
  ⟨(sortFallbackAmended (some "bogus!") none).1 (by decide),
   (sortFallbackAmended (some "price_usd") none).2.1⟩

/-- C7 counterexample: the order value `descending` matches the word
"descending" case-insensitively, yet the generated direction is `ASC` —
the code compares the uppercased value against `DESC`, not `DESCENDING`. -/
theorem descendingWordCounterexample :
    sortOrder (some "descending") = "ASC" ∧
    jsToUpper "descending" = "DESCENDING" ∧
    sortOrder (some "descending") ≠ "DESC" := by
  decide

/-- C7 amended: the generated direction is always exactly `ASC` or `DESC`;
it is `DESC` precisely when the (defaulted) order value uppercases to
`DESC` (a case-insensitive match of "desc"), and every other value,
absence included, yields `ASC`. -/
theorem sortDirectionAmended :
    (∀ o : Option String, sortOrder o = "ASC" ∨ sortOrder o = "DESC") ∧
    (∀ o : Option String, sortOrder o = "DESC" ↔ jsToUpper (o.getD "ASC") = "DESC") ∧
    sortOrder none = "ASC" := by
  refine ⟨sortOrder_cases, ?_, by decide⟩
  intro o
  unfold sortOrder
  split
  · next h => simp [h]
  · next h => simp [h]

/-- C8: with both fields present, a username with no matching row and a
matching row whose hash fails verification produce identical responses in
both variants — status 401, message "Invalid username or password" — so
the two failure causes are indistinguishable to the caller. -/
theorem loginFailureIndistinguishable
    (db : List UserRow) (verify : String → String → Bool) (u1 p1 u2 p2 : String)
    (hu1 : u1 ≠ "") (hp1 : p1 ≠ "") (hu2 : u2 ≠ "") (hp2 : p2 ≠ "")
    (hnone : findUser db u1 = none)
    (hbad : ∃ r, findUser db u2 = some r ∧ verify p2 r.password_hash = false) :
    loginA db verify (some u1) (some p1)
        = ⟨401, false, "Invalid username or password", none⟩ ∧
    loginA db verify (some u2) (some p2)
        = ⟨401, false, "Invalid username or password", none⟩ ∧
    loginA db verify (some u1) (some p1) = loginA db verify (some u2) (some p2) ∧
    loginB db verify (some u1) (some p1)
        = ⟨401, false, "Invalid username or password", none⟩ ∧
    loginB db verify (some u2) (some p2)
        = ⟨401, false, "Invalid username or password", none⟩ ∧
    loginB db verify (some u1) (some p1) = loginB db verify (some u2) (some p2) := by
  obtain ⟨r, hfind, hver⟩ := hbad
  have e1 : loginA db verify (some u1) (some p1)
      = ⟨401, false, "Invalid username or password", none⟩ := by
    simp [loginA, truthy, hu1, hp1, hnone]
  have e2 : loginA db verify (some u2) (some p2)
      = ⟨401, false, "Invalid username or password", none⟩ := by
    simp [loginA, truthy, hu2, hp2, hfind, hver]
  have e3 : loginB db verify (some u1) (some p1)
      = ⟨401, false, "Invalid username or password", none⟩ := by
    simp [loginB, truthy, hu1, hp1, hnone]
  have e4 : loginB db verify (some u2) (some p2)
      = ⟨401, false, "Invalid username or password", none⟩ := by
    simp [loginB, truthy, hu2, hp2, hfind, hver]
  exact ⟨e1, e2, e1.trans e2.symm, e3, e4, e3.trans e4.symm⟩

/-- C8, witness: one user table, a wrong-username attempt and a
wrong-password attempt answered identically. -/
theorem loginFailureIndistinguishableWitness :
    loginA [⟨1, "alice", "alice@example.com", "h1"⟩] (fun _ _ => false)
        (some "bob") (some "pw1")
      = ⟨401, false, "Invalid username or password", none⟩ ∧
    loginA [⟨1, "alice", "alice@example.com", "h1"⟩] (fun _ _ => false)
        (some "alice") (some "pw2")
      = ⟨401, false, "Invalid username or password", none⟩ := by
  have h := loginFailureIndistinguishable
    [⟨1, "alice", "alice@example.com", "h1"⟩] (fun _ _ => false)
    "bob" "pw1" "alice" "pw2"
    (by decide) (by decide) (by decide) (by decide) (by decide)
    ⟨⟨1, "alice", "alice@example.com", "h1"⟩, by decide, rfl⟩
  exact ⟨h.1, h.2.1⟩

/-- C9: the variant A games-list response always satisfies
totalPages = ceil(totalGames / pageSize), hasNextPage ↔ page < totalPages
and hasPrevPage ↔ page > 1; and with 12 matching rows, page=1, limit=5 it
carries totalGames=12, totalPages=3, hasNextPage, no hasPrevPage, and
exactly 5 rows. -/
theorem paginationMetadataCorrect (table : List GameRow) (q : GamesQueryInput) :
    (handleGamesA table q).totalPages
      = mathCeilDiv ((handleGamesA table q).totalGames : Int)
          ((handleGamesA table q).gamesPerPage) ∧
    ((handleGamesA table q).hasNextPage = true ↔
      (handleGamesA table q).currentPage < (handleGamesA table q).totalPages) ∧
    ((handleGamesA table q).hasPrevPage = true ↔
      1 < (handleGamesA table q).currentPage) ∧
    (q.page = some "1" → q.limit = some "5" →
      (table.filter (rowMatches q)).length = 12 →
      (handleGamesA table q).totalGames = 12 ∧
      (handleGamesA table q).totalPages = 3 ∧
      (handleGamesA table q).hasNextPage = true ∧
      (handleGamesA table q).hasPrevPage = false ∧
      (handleGamesA table q).games.length = 5) := by
  refine ⟨rfl, by simp [handleGamesA], by simp [handleGamesA], ?_⟩
  intro hp hl hcount
  have hpage : pageNumA q.page = 1 := by rw [hp]; decide
  have hlimit : limitNumA q.limit = 5 := by rw [hl]; decide
  have hoff : offsetA q.page q.limit = 0 := by
    unfold offsetA; rw [hpage, hlimit]; norm_num
  refine ⟨by simp [handleGamesA, hcount], ?_, ?_, ?_, ?_⟩
  · simp [handleGamesA, hcount, hlimit, mathCeilDiv]
  · simp [handleGamesA, hcount, hlimit, hpage, mathCeilDiv]
  · simp [handleGamesA, hpage]
  · simp [handleGamesA, hoff, hlimit, List.length_take, List.length_drop,
      length_sortRows, hcount]

/-- C9, witness: a 12-row table at page 1, limit 5. -/
theorem paginationMetadataCorrectWitness :
    (handleGamesA (List.replicate 12 ⟨1, "g", 1, none, none, none, 0, 0⟩)
        { page := some "1", limit := some "5" }).totalGames = 12 ∧
    (handleGamesA (List.replicate 12 ⟨1, "g", 1, none, none, none, 0, 0⟩)
        { page := some "1", limit := some "5" }).totalPages = 3 ∧
    (handleGamesA (List.replicate 12 ⟨1, "g", 1, none, none, none, 0, 0⟩)
        { page := some "1", limit := some "5" }).hasNextPage = true ∧
    (handleGamesA (List.replicate 12 ⟨1, "g", 1, none, none, none, 0, 0⟩)
        { page := some "1", limit := some "5" }).hasPrevPage = false ∧
    (handleGamesA (List.replicate 12 ⟨1, "g", 1, none, none, none, 0, 0⟩)
        { page := some "1", limit := some "5" }).games.length = 5 :=
  (paginationMetadataCorrect _ _).2.2.2 rfl rfl (by decide)

/-- C10: the by-id handler answers 400 "Invalid game ID" exactly when
JavaScript numeric coercion of the (non-empty) id segment is `NaN`;
segments that coerce to a number without being decimal integers — a
whitespace-only segment, `Infinity`, `1e3`, `0x10` — pass validation and
reach the lookup, yielding 404 on an empty table. -/
theorem invalidIdExactlyNaN :
    (∀ (id : String) (table : List GameRow), id ≠ "" →
      (getGameById table id = ⟨400, false, some "Invalid game ID", none⟩ ↔
        jsIsNaNStr id = true)) ∧
    jsIsNaNStr " " = false ∧ jsIsNaNStr "Infinity" = false ∧
    jsIsNaNStr "1e3" = false ∧ jsIsNaNStr "0x10" = false ∧
    getGameById [] " " = ⟨404, false, some "Game not found", none⟩ ∧
    getGameById [] "Infinity" = ⟨404, false, some "Game not found", none⟩ ∧
    getGameById [] "1e3" = ⟨404, false, some "Game not found", none⟩ ∧
    getGameById [] "0x10" = ⟨404, false, some "Game not found", none⟩ := by
  refine ⟨?_, by decide, by decide, by decide, by decide,
    by decide, by decide, by decide, by decide⟩
  intro id table hid
  cases hn : jsIsNaNStr id with
  | false =>
    have hcond : (decide (id = "") || jsIsNaNStr id) = false := by
      simp [hid, hn]
    unfold getGameById
    rw [hcond]
    cases hf : findByIdParam table id <;> simp
  | true =>
    have hcond : (decide (id = "") || jsIsNaNStr id) = true := by simp [hn]
    unfold getGameById
    rw [hcond]
    simp

/-- C10, witness: a non-numeric segment is rejected with 400. -/
theorem invalidIdExactlyNaNWitness :
    getGameById [] "stats2" = ⟨400, false, some "Invalid game ID", none⟩ :=
  (invalidIdExactlyNaN.1 "stats2" [] (by decide)).mpr (by decide)

end GameTimeDB
